import Mathlib

/-!
Shallow embedding of the FLIP/PIC simulator core implemented by the flipsim
class in src/sim/flip.cpp. Machine floats are modelled as rationals; grids
are total functions from integer indices to values, faithful because every
grid access made by the embedded routines is bounds-guarded in the source.
Collaborator code that is not part of the repository sources (grid
accessors on continuous points, the particle grid, the transfer operators,
the scene) is modelled from the specification; each such definition carries
a doc comment starting with "Modelled from the spec:".
-/

namespace Kai

/-- Cell and particle classification, from the geomtype enumeration used by
flip.cpp (FLUID, SOLID, AIR). -/
inductive CellType where
  | FLUID
  | SOLID
  | AIR
deriving DecidableEq, Repr

open CellType

/-- Three-component vector of rationals, modelling glm::vec3. -/
structure Vec3 where
  x : ℚ
  y : ℚ
  z : ℚ
deriving DecidableEq, Repr

/-- Componentwise vector addition. -/
def vadd (a b : Vec3) : Vec3 := ⟨a.x + b.x, a.y + b.y, a.z + b.z⟩

/-- Componentwise vector subtraction. -/
def vsub (a b : Vec3) : Vec3 := ⟨a.x - b.x, a.y - b.y, a.z - b.z⟩

/-- Scalar multiple of a vector. -/
def smul (c : ℚ) (a : Vec3) : Vec3 := ⟨c * a.x, c * a.y, c * a.z⟩

/-- Dot product. -/
def vdot (a b : Vec3) : ℚ := a.x * b.x + a.y * b.y + a.z * b.z

/-- Componentwise minimum, modelling glm::min on vectors. -/
def vminC (a b : Vec3) : Vec3 := ⟨min a.x b.x, min a.y b.y, min a.z b.z⟩

/-- Componentwise maximum, modelling glm::max on vectors. -/
def vmaxC (a b : Vec3) : Vec3 := ⟨max a.x b.x, max a.y b.y, max a.z b.z⟩

/-- Constant vector with all three components equal, modelling vec3(c). -/
def vec3c (c : ℚ) : Vec3 := ⟨c, c, c⟩

/-- Bounded linear search for the integer square root, kernel-reducible. -/
def sqrtLoop : ℕ → ℕ → ℕ
  | 0, _ => 0
  | (m+1), v => if (m+1)*(m+1) ≤ v then m+1 else sqrtLoop m v

/-- Integer square root (floor), kernel-reducible. -/
def natSqrt (v : ℕ) : ℕ := sqrtLoop v v

/-- Rational square root: exact whenever the argument is the square of a
rational. This stands in for the real-valued sqrt inside glm::length; every
theorem below evaluates it only at perfect squares, where it agrees with
the real square root. -/
def ratSqrt (q : ℚ) : ℚ := (natSqrt q.num.toNat : ℚ) / (natSqrt q.den : ℚ)

/-- Euclidean length of a vector, modelling glm::length. -/
def vlength (a : Vec3) : ℚ := ratSqrt (vdot a a)

/-- Normalized vector, modelling glm::normalize. -/
def vnormalize (a : Vec3) : Vec3 := smul (1 / vlength a) a

/-- Particle record, from the particle struct used by flip.cpp: position p,
velocity u, scratch (FLIP) velocity t, surface normal n, mass, normalized
density, classification, and the transient invalid / temp flags. -/
structure Particle where
  p : Vec3
  u : Vec3
  t : Vec3
  n : Vec3
  mass : ℚ
  density : ℚ
  type : CellType
  invalid : Bool
  temp : Bool
deriving DecidableEq, Repr

/-- Simulation step size, set to 0.005 in the flipsim constructor. -/
def stepsize : ℚ := 1/200

/-- PIC/FLIP blend ratio, set to 0.95 in the flipsim constructor. -/
def picflipratioC : ℚ := 95/100

/-- Gravity vector (0, -9.8, 0) from flipsim::applyExternalForces. -/
def gravity : Vec3 := ⟨0, -(49/5), 0⟩

/-- Largest grid dimension, computed throughout flip.cpp as
glm::max(glm::max(dimensions.x, dimensions.z), dimensions.y). -/
def maxd (X Y Z : ℕ) : ℚ := max (max (X:ℚ) (Z:ℚ)) (Y:ℚ)

/-- Scalar 3D grid as a total function on integer indices. -/
abbrev ScalarGrid := Int → Int → Int → ℚ

/-- Cell-type 3D grid as a total function on integer indices. -/
abbrev TypeGrid := Int → Int → Int → CellType

/-- MAC grid bundle from createMacgrid: face velocities u_x, u_y, u_z,
cell types A, pressure P, divergence D, liquid level set L. -/
structure Macgrid where
  u_x : ScalarGrid
  u_y : ScalarGrid
  u_z : ScalarGrid
  A : TypeGrid
  P : ScalarGrid
  D : ScalarGrid
  L : ScalarGrid

/-- flipsim::applyExternalForces (flip.cpp lines 662-672): adds
gravity*stepsize to the velocity of every particle in the list; the loop
body contains no check of the particle's type. -/
def applyExternalForces (ps : List Particle) : List Particle :=
  ps.map (fun q => { q with u := vadd q.u (smul stepsize gravity) })

/-- A SOLID particle at rest, used as a concrete input. -/
def solidAtRest : Particle :=
  { p := ⟨1/2, 1/2, 1/2⟩, u := ⟨0, 0, 0⟩, t := ⟨0, 0, 0⟩, n := ⟨0, 1, 0⟩,
    mass := 1, density := 1, type := SOLID, invalid := false, temp := false }

/-- C2 counterexample: applyExternalForces changes the velocity of a SOLID
particle (the claim says particles that are not FLUID are left unchanged).
With u = 0 on entry, the particle leaves with u = (0, -0.049, 0). -/
theorem C2_applyExternalForces_counterexample :
    ((applyExternalForces [solidAtRest])[0]?).map Particle.u ≠ some solidAtRest.u := by
  simp only [applyExternalForces, List.map_cons, List.map_nil, List.getElem?_cons_zero,
    Option.map_some', solidAtRest, vadd, smul, stepsize, gravity]
  intro h
  have h2 := Option.some.inj h
  have h3 := congrArg Vec3.y h2
  norm_num at h3

/-- C2 (amended): applyExternalForces adds gravity times the step size,
(0, -9.8, 0) * 0.005 = (0, -0.049, 0), to the velocity of every particle,
regardless of its type; nothing else about the particle changes. -/
theorem C2_applyExternalForces_amended (ps : List Particle) (i : ℕ) (q : Particle)
    (hq : ps[i]? = some q) :
    (applyExternalForces ps)[i]? = some { q with u := vadd q.u (smul stepsize gravity) }
      ∧ smul stepsize gravity = ⟨0, -(49/1000), 0⟩ := by
  constructor
  · simp [applyExternalForces, List.getElem?_map, hq]
  · simp only [smul, stepsize, gravity]
    norm_num

/-- C2 witness: the amended theorem applied to a concrete one-particle list. -/
theorem C2_applyExternalForces_amended_witness :
    (applyExternalForces [solidAtRest])[0]?
        = some { solidAtRest with u := vadd solidAtRest.u (smul stepsize gravity) }
      ∧ smul stepsize gravity = ⟨0, -(49/1000), 0⟩ :=
  C2_applyExternalForces_amended [solidAtRest] 0 solidAtRest rfl

/-- flipsim::isCellFluid (flip.cpp lines 711-718): true exactly when the
scene's liquid level set at the cell is negative and the scene's solid
level set there is non-negative. The level sets are the scene's grids,
modelled as total scalar grids; the per-step cell-type grid mgrid.A is not
an input of this routine. -/
def isCellFluid (liquidLevelSet solidLevelSet : ScalarGrid) (x y z : Int) : Bool :=
  if liquidLevelSet x y z < 0 ∧ 0 ≤ solidLevelSet x y z then true else false

/-- Modelled from the spec: the per-cell assignment rule of
particlegrid::markCellTypes (the particlegrid code is not under src/): a
cell on the domain shell or inside the solid level set is SOLID, otherwise
a cell holding at least one FLUID particle is FLUID, otherwise AIR (spec
section 3 "Cell type" and section 4.2). -/
def markCellTypeCell (X Y Z : ℕ) (insideSolid hasFluidParticle : Bool)
    (i j k : Int) : CellType :=
  if i = 0 ∨ i = (X:Int) - 1 ∨ j = 0 ∨ j = (Y:Int) - 1 ∨ k = 0 ∨ k = (Z:Int) - 1 then SOLID
  else if insideSolid then SOLID
  else if hasFluidParticle then FLUID
  else AIR

/-- C10: isCellFluid returns true iff the liquid level set is strictly
negative and the solid level set is non-negative at the cell; and its
answer can differ from the cell being marked FLUID by markCellTypes: at a
level-set-fluid cell holding no particle, markCellTypes yields AIR while
isCellFluid yields true. -/
theorem C10_isCellFluid_iff :
    (∀ (liquidLS solidLS : ScalarGrid) (x y z : Int),
        isCellFluid liquidLS solidLS x y z = true ↔
          (liquidLS x y z < 0 ∧ 0 ≤ solidLS x y z))
      ∧ (isCellFluid (fun _ _ _ => -1) (fun _ _ _ => 1) 1 1 1 = true
          ∧ markCellTypeCell 3 3 3 false false 1 1 1 ≠ FLUID) := by
  refine ⟨fun liquidLS solidLS x y z => ?_, ?_, ?_⟩
  · by_cases h : liquidLS x y z < 0 ∧ 0 ≤ solidLS x y z <;> simp [isCellFluid, h]
  · norm_num [isCellFluid]
  · decide

/-- Phase labels for the calls made by flipsim::step, in source order. -/
inductive StepPhase where
  | incrementFrame
  | buildLevelSets
  | generateParticles
  | sortParticles
  | computeDensityPhase
  | applyForces
  | splatToMAC
  | markTypes
  | storePrevious
  | enforceBoundary
  | projectPhase
  | extrapolate
  | subtractPrevious
  | picflipBlend
  | advect
  | resample
  | markInvalidParticles
  | removeTempParticles
  | pushStuckOutOfSolids
  | exportParticlesPhase
deriving DecidableEq, Repr

/-- flipsim::step (flip.cpp lines 99-183) as the sequence of phases it
performs, one label per call site, in the order they appear in the body;
the export call runs only when one of the three save flags is set. -/
def stepTrace (saveVdb saveObj savePart : Bool) : List StepPhase :=
  [StepPhase.incrementFrame, StepPhase.buildLevelSets, StepPhase.generateParticles,
   StepPhase.sortParticles, StepPhase.computeDensityPhase, StepPhase.applyForces,
   StepPhase.splatToMAC, StepPhase.markTypes, StepPhase.storePrevious,
   StepPhase.enforceBoundary, StepPhase.projectPhase, StepPhase.enforceBoundary,
   StepPhase.extrapolate, StepPhase.subtractPrevious, StepPhase.picflipBlend,
   StepPhase.advect, StepPhase.resample, StepPhase.markInvalidParticles,
   StepPhase.removeTempParticles, StepPhase.pushStuckOutOfSolids]
    ++ (if saveVdb || saveObj || savePart then [StepPhase.exportParticlesPhase] else [])

/-- C4: a single call to step performs exactly the claimed phases in the
claimed order: frame increment, level sets, emission, sort, density,
forces, splat, mark, save-previous, boundary, project, boundary again,
extrapolate, delta, blend, advect, resample, the cleanup trio (mark
invalid, remove temp, push stuck out of solids), and export exactly when
some export flag is set. -/
theorem C4_step_pipeline (saveVdb saveObj savePart : Bool) :
    stepTrace saveVdb saveObj savePart =
      [StepPhase.incrementFrame, StepPhase.buildLevelSets, StepPhase.generateParticles,
       StepPhase.sortParticles, StepPhase.computeDensityPhase, StepPhase.applyForces,
       StepPhase.splatToMAC, StepPhase.markTypes, StepPhase.storePrevious,
       StepPhase.enforceBoundary, StepPhase.projectPhase, StepPhase.enforceBoundary,
       StepPhase.extrapolate, StepPhase.subtractPrevious, StepPhase.picflipBlend,
       StepPhase.advect, StepPhase.resample, StepPhase.markInvalidParticles,
       StepPhase.removeTempParticles, StepPhase.pushStuckOutOfSolids]
        ++ (if saveVdb || saveObj || savePart then [StepPhase.exportParticlesPhase] else [])
      ∧ (StepPhase.exportParticlesPhase ∈ stepTrace saveVdb saveObj savePart ↔
          (saveVdb = true ∨ saveObj = true ∨ savePart = true)) := by
  refine ⟨rfl, ?_⟩
  cases saveVdb <;> cases saveObj <;> cases savePart <;> decide

/-- Clamp an integer index into [lo, hi], modelling the clamped grid reads
of the grid classes. -/
def clampI (lo hi v : Int) : Int := max lo (min hi v)

/-- Modelled from the spec: the trilinear sampler of the grid classes on
continuous grid-space coordinates (the grid code is not under src/):
floor to the base corner, blend the eight surrounding values with the
fractional weights, reading out-of-range corners clamped (spec section
4.1). The extents give the staggered shape of the sampled grid. -/
def triSample (ex ey ez : ℕ) (g : ScalarGrid) (v : Vec3) : ℚ :=
  let i0 : Int := ⌊v.x⌋
  let j0 : Int := ⌊v.y⌋
  let k0 : Int := ⌊v.z⌋
  let fx : ℚ := v.x - (i0 : ℚ)
  let fy : ℚ := v.y - (j0 : ℚ)
  let fz : ℚ := v.z - (k0 : ℚ)
  let rd : Int → Int → Int → ℚ := fun a b c =>
    g (clampI 0 ((ex:Int) - 1) a) (clampI 0 ((ey:Int) - 1) b) (clampI 0 ((ez:Int) - 1) c)
  (1-fx)*(1-fy)*(1-fz) * rd i0 j0 k0
    + fx*(1-fy)*(1-fz) * rd (i0+1) j0 k0
    + (1-fx)*fy*(1-fz) * rd i0 (j0+1) k0
    + (1-fx)*(1-fy)*fz * rd i0 j0 (k0+1)
    + fx*fy*(1-fz) * rd (i0+1) (j0+1) k0
    + fx*(1-fy)*fz * rd (i0+1) j0 (k0+1)
    + (1-fx)*fy*fz * rd i0 (j0+1) (k0+1)
    + fx*fy*fz * rd (i0+1) (j0+1) (k0+1)

/-- Modelled from the spec: interpolateVelocity from
particlegridoperations.inl (not under src/): the staggered trilinear
gather of the three face-velocity grids at a position in [0,1]^3, with the
per-component sampler offsets (0, 1/2, 1/2), (1/2, 0, 1/2), (1/2, 1/2, 0)
(spec sections 4.1 and 4.3). -/
def interpolateVelocity (X Y Z : ℕ) (g : Macgrid) (pos : Vec3) : Vec3 :=
  let m := maxd X Y Z
  ⟨ triSample (X+1) Y Z g.u_x ⟨pos.x * m, pos.y * m - 1/2, pos.z * m - 1/2⟩,
    triSample X (Y+1) Z g.u_y ⟨pos.x * m - 1/2, pos.y * m, pos.z * m - 1/2⟩,
    triSample X Y (Z+1) g.u_z ⟨pos.x * m - 1/2, pos.y * m - 1/2, pos.z * m⟩ ⟩

/-- Modelled from the spec: splatMACGridToParticles from
particlegridoperations.inl (not under src/): overwrite each particle's
velocity with the grid velocity gathered at its position (spec section
4.6, step 15: "for each particle p ... sample"). -/
def splatMACGridToParticles (X Y Z : ℕ) (g : Macgrid) (ps : List Particle) : List Particle :=
  ps.map (fun q => { q with u := interpolateVelocity X Y Z g q.p })

/-- flipsim::solvePicFlip (flip.cpp lines 268-303): save t := u, gather
mgrid_previous into u, set t := u + t (the FLIP candidate), gather mgrid
into u (the PIC candidate), then blend
u := (1 - picflipratio)*u + picflipratio*t. -/
def solvePicFlip (X Y Z : ℕ) (mgrid mgrid_previous : Macgrid)
    (ps : List Particle) : List Particle :=
  let ps1 := ps.map (fun q => { q with t := q.u })
  let ps2 := splatMACGridToParticles X Y Z mgrid_previous ps1
  let ps3 := ps2.map (fun q => { q with t := vadd q.u q.t })
  let ps4 := splatMACGridToParticles X Y Z mgrid ps3
  ps4.map (fun q =>
    { q with u := vadd (smul (1 - picflipratioC) q.u) (smul picflipratioC q.t) })

/-- flipsim::subtractPreviousGrid (flip.cpp lines 346-391): overwrite each
face of mgrid_previous with mgrid's face velocity minus mgrid_previous's,
over the three staggered face ranges; all other state is untouched. -/
def subtractPreviousGrid (X Y Z : ℕ) (mgrid mgrid_previous : Macgrid) : Macgrid :=
  { mgrid_previous with
    u_x := fun i j k =>
      if 0 ≤ i ∧ i < (X:Int) + 1 ∧ 0 ≤ j ∧ j < (Y:Int) ∧ 0 ≤ k ∧ k < (Z:Int) then
        mgrid.u_x i j k - mgrid_previous.u_x i j k
      else mgrid_previous.u_x i j k,
    u_y := fun i j k =>
      if 0 ≤ i ∧ i < (X:Int) ∧ 0 ≤ j ∧ j < (Y:Int) + 1 ∧ 0 ≤ k ∧ k < (Z:Int) then
        mgrid.u_y i j k - mgrid_previous.u_y i j k
      else mgrid_previous.u_y i j k,
    u_z := fun i j k =>
      if 0 ≤ i ∧ i < (X:Int) ∧ 0 ≤ j ∧ j < (Y:Int) ∧ 0 ≤ k ∧ k < (Z:Int) + 1 then
        mgrid.u_z i j k - mgrid_previous.u_z i j k
      else mgrid_previous.u_z i j k }

/-- Commutativity of the embedded vector addition. -/
theorem vadd_comm (a b : Vec3) : vadd a b = vadd b a := by
  simp [vadd, add_comm]

/-- C1: after solvePicFlip every particle's velocity is
(1 - picflipratio)*PIC + picflipratio*FLIP with picflipratio = 0.95, where
PIC is the staggered trilinear gather of mgrid at the particle's position
and FLIP is the entry velocity plus the gather of mgrid_previous there;
and subtractPreviousGrid has made every face of mgrid_previous equal to
mgrid's face velocity minus the saved grid's. -/
theorem C1_solvePicFlip_blend (X Y Z : ℕ) (mgrid saved : Macgrid)
    (ps : List Particle) (i : ℕ) (q : Particle) (hq : ps[i]? = some q) :
    (∀ mgrid_previous : Macgrid,
      ((solvePicFlip X Y Z mgrid mgrid_previous ps)[i]?).map Particle.u =
        some (vadd (smul (1 - picflipratioC) (interpolateVelocity X Y Z mgrid q.p))
              (smul picflipratioC (vadd q.u (interpolateVelocity X Y Z mgrid_previous q.p)))))
      ∧ picflipratioC = 0.95
      ∧ (∀ a b c : Int,
          (0 ≤ a ∧ a < (X:Int) + 1 ∧ 0 ≤ b ∧ b < (Y:Int) ∧ 0 ≤ c ∧ c < (Z:Int)) →
            (subtractPreviousGrid X Y Z mgrid saved).u_x a b c
              = mgrid.u_x a b c - saved.u_x a b c)
      ∧ (∀ a b c : Int,
          (0 ≤ a ∧ a < (X:Int) ∧ 0 ≤ b ∧ b < (Y:Int) + 1 ∧ 0 ≤ c ∧ c < (Z:Int)) →
            (subtractPreviousGrid X Y Z mgrid saved).u_y a b c
              = mgrid.u_y a b c - saved.u_y a b c)
      ∧ (∀ a b c : Int,
          (0 ≤ a ∧ a < (X:Int) ∧ 0 ≤ b ∧ b < (Y:Int) ∧ 0 ≤ c ∧ c < (Z:Int) + 1) →
            (subtractPreviousGrid X Y Z mgrid saved).u_z a b c
              = mgrid.u_z a b c - saved.u_z a b c) := by
  refine ⟨fun mgrid_previous => ?_, by norm_num [picflipratioC], ?_, ?_, ?_⟩
  · simp only [solvePicFlip, splatMACGridToParticles, List.map_map, List.getElem?_map, hq,
      Option.map_some', Function.comp]
    rw [vadd_comm q.u]
  · intro a b c h
    simp only [subtractPreviousGrid, if_pos h]
  · intro a b c h
    simp only [subtractPreviousGrid, if_pos h]
  · intro a b c h
    simp only [subtractPreviousGrid, if_pos h]

/-- Constant-velocity MAC grid with all faces at value 2 (a concrete input). -/
def gridTwo : Macgrid :=
  { u_x := fun _ _ _ => 2, u_y := fun _ _ _ => 2, u_z := fun _ _ _ => 2,
    A := fun _ _ _ => FLUID, P := fun _ _ _ => 0, D := fun _ _ _ => 0,
    L := fun _ _ _ => -1 }

/-- Constant-velocity MAC grid with all faces at value 3 (a concrete input). -/
def gridThree : Macgrid :=
  { u_x := fun _ _ _ => 3, u_y := fun _ _ _ => 3, u_z := fun _ _ _ => 3,
    A := fun _ _ _ => FLUID, P := fun _ _ _ => 0, D := fun _ _ _ => 0,
    L := fun _ _ _ => -1 }

/-- A FLUID particle with unit velocity at the domain center (a concrete input). -/
def fluidCenter : Particle :=
  { p := ⟨1/2, 1/2, 1/2⟩, u := ⟨1, 1, 1⟩, t := ⟨0, 0, 0⟩, n := ⟨0, 0, 0⟩,
    mass := 1, density := 1, type := FLUID, invalid := false, temp := false }

/-- C1 witness: the blend theorem applied at a concrete particle and
concrete grids. -/
theorem C1_solvePicFlip_blend_witness :
    ((solvePicFlip 2 2 2 gridTwo gridThree [fluidCenter])[0]?).map Particle.u =
      some (vadd (smul (1 - picflipratioC) (interpolateVelocity 2 2 2 gridTwo fluidCenter.p))
            (smul picflipratioC
              (vadd fluidCenter.u (interpolateVelocity 2 2 2 gridThree fluidCenter.p))))
      ∧ (subtractPreviousGrid 2 2 2 gridTwo gridThree).u_x 0 0 0
          = gridTwo.u_x 0 0 0 - gridThree.u_x 0 0 0 := by
  have h := C1_solvePicFlip_blend 2 2 2 gridTwo gridThree [fluidCenter] 0 fluidCenter rfl
  exact ⟨(h.1 gridThree), h.2.2.1 0 0 0 (by norm_num)⟩

/-- Unit offset of stagger axis n in direction m: 1 when n = m else 0.
Used to express the three per-axis copies in flipsim::extrapolateVelocity
(flip.cpp lines 433-546) as one definition parametric in n. -/
def staggerOne (n m : ℕ) : Int := if n = m then 1 else 0

/-- Coordinate of a face index along axis n. -/
def axisC (n : ℕ) (i j k : Int) : Int := if n = 0 then i else if n = 1 then j else k

/-- Grid extent along axis n. -/
def axisD (n : ℕ) (X Y Z : ℕ) : Int :=
  if n = 0 then (X:Int) else if n = 1 then (Y:Int) else (Z:Int)

/-- Face-index range of velocity component n: the staggered shape with one
extra layer along axis n, exactly the neighbor bounds check
q >= 0 && q < dim + (axis match) at flip.cpp line 507 and the loop guards
at lines 498-500. -/
abbrev inFaceRange (n : ℕ) (X Y Z : ℕ) (i j k : Int) : Prop :=
  0 ≤ i ∧ i < (X:Int) + staggerOne n 0
    ∧ 0 ≤ j ∧ j < (Y:Int) + staggerOne n 1
    ∧ 0 ≤ k ∧ k < (Z:Int) + staggerOne n 2

/-- The valid indicator mark[n] of flipsim::extrapolateVelocity (flip.cpp
lines 451-452, 466-467, 481-482): the face touches an in-range FLUID cell
on its back or front side. -/
abbrev markFace (n : ℕ) (X Y Z : ℕ) (A : TypeGrid) (i j k : Int) : Prop :=
  (0 < axisC n i j k
      ∧ A (i - staggerOne n 0) (j - staggerOne n 1) (k - staggerOne n 2) = FLUID)
    ∨ (axisC n i j k < axisD n X Y Z ∧ A i j k = FLUID)

/-- The wall indicator wallmark[n] of flipsim::extrapolateVelocity
(flip.cpp lines 453-454, 468-469, 483-484): both adjacent cells are SOLID,
out-of-range sides counting as SOLID. -/
abbrev wallFace (n : ℕ) (X Y Z : ℕ) (A : TypeGrid) (i j k : Int) : Prop :=
  (axisC n i j k ≤ 0
      ∨ A (i - staggerOne n 0) (j - staggerOne n 1) (k - staggerOne n 2) = SOLID)
    ∧ (axisD n X Y Z ≤ axisC n i j k ∨ A i j k = SOLID)

/-- The six axis-aligned neighbor faces q[0..5] of flip.cpp lines 504-505,
in source order. -/
def neighborOffsets (i j k : Int) : List (Int × Int × Int) :=
  [(i-1, j, k), (i+1, j, k), (i, j-1, k), (i, j+1, k), (i, j, k-1), (i, j, k+1)]

/-- A neighbor face contributes when it is in the staggered range and its
valid indicator holds (flip.cpp lines 506-509). -/
abbrev faceValid (n : ℕ) (X Y Z : ℕ) (A : TypeGrid) (c : Int × Int × Int) : Prop :=
  inFaceRange n X Y Z c.1 c.2.1 c.2.2 ∧ markFace n X Y Z A c.1 c.2.1 c.2.2

/-- Collect the elements of a list satisfying a decidable predicate,
preserving order. -/
def collectIf (p : Int × Int × Int → Prop) [DecidablePred p]
    (L : List (Int × Int × Int)) : List (Int × Int × Int) :=
  L.foldr (fun c acc => if p c then c :: acc else acc) []

/-- The in-range valid neighbor faces of a face, in source order. -/
def validNeighborFaces (n : ℕ) (X Y Z : ℕ) (A : TypeGrid) (i j k : Int) :
    List (Int × Int × Int) :=
  collectIf (faceValid n X Y Z A) (neighborOffsets i j k)

/-- Component n of flipsim::extrapolateVelocity (flip.cpp lines 491-539):
at every staggered face with valid indicator false and wall indicator
true, accumulate count wsum and sum over the in-range valid neighbor
faces, and overwrite the face with sum/wsum when wsum is nonzero; every
other face keeps its value. -/
def extrapolateComponent (n : ℕ) (X Y Z : ℕ) (A : TypeGrid) (u : ScalarGrid) : ScalarGrid :=
  fun i j k =>
    if inFaceRange n X Y Z i j k ∧ ¬ markFace n X Y Z A i j k ∧ wallFace n X Y Z A i j k then
      let acc := (neighborOffsets i j k).foldl
        (fun acc c => if faceValid n X Y Z A c then (acc.1 + 1, acc.2 + u c.1 c.2.1 c.2.2)
                      else acc) ((0:ℕ), (0:ℚ))
      if acc.1 ≠ 0 then acc.2 / (acc.1 : ℚ) else u i j k
    else u i j k

/-- flipsim::extrapolateVelocity: the three velocity components updated
independently from the cell-type grid mgrid.A. -/
def extrapolateVelocity (X Y Z : ℕ) (g : Macgrid) : Macgrid :=
  { g with
    u_x := extrapolateComponent 0 X Y Z g.A g.u_x,
    u_y := extrapolateComponent 1 X Y Z g.A g.u_y,
    u_z := extrapolateComponent 2 X Y Z g.A g.u_z }

/-- Unfolding equation for extrapolateComponent at a face. -/
theorem extrapolateComponent_eval (n : ℕ) (X Y Z : ℕ) (A : TypeGrid) (u : ScalarGrid)
    (i j k : Int) :
    extrapolateComponent n X Y Z A u i j k =
      if inFaceRange n X Y Z i j k ∧ ¬ markFace n X Y Z A i j k ∧ wallFace n X Y Z A i j k then
        (let acc := (neighborOffsets i j k).foldl
          (fun acc c => if faceValid n X Y Z A c then (acc.1 + 1, acc.2 + u c.1 c.2.1 c.2.2)
                        else acc) ((0:ℕ), (0:ℚ))
         if acc.1 ≠ 0 then acc.2 / (acc.1 : ℚ) else u i j k)
      else u i j k := rfl

/-- A face whose valid indicator holds is never modified by
extrapolateComponent. -/
theorem extrapolateComponent_marked (n : ℕ) (X Y Z : ℕ) (A : TypeGrid) (u : ScalarGrid)
    (i j k : Int) (h : markFace n X Y Z A i j k) :
    extrapolateComponent n X Y Z A u i j k = u i j k := by
  rw [extrapolateComponent_eval, if_neg]
  exact fun hc => hc.2.1 h

/-- The neighbor accumulation of count and sum equals length and sum of
the collected valid neighbor list. -/
theorem foldl_accum_collect (p : Int × Int × Int → Prop) [DecidablePred p]
    (u : ScalarGrid) (L : List (Int × Int × Int)) :
    ∀ acc : ℕ × ℚ,
      L.foldl (fun acc c => if p c then (acc.1 + 1, acc.2 + u c.1 c.2.1 c.2.2) else acc) acc
        = (acc.1 + (collectIf p L).length,
           acc.2 + ((collectIf p L).map (fun c => u c.1 c.2.1 c.2.2)).sum) := by
  induction L with
  | nil => intro acc; simp [collectIf]
  | cons hd tl ih =>
    intro acc
    by_cases h : p hd
    · simp only [List.foldl_cons, collectIf, List.foldr_cons, if_pos h, ih,
        List.length_cons, List.map_cons, List.sum_cons]
      rw [Prod.mk.injEq]
      exact ⟨by omega, by ring⟩
    · simp only [List.foldl_cons, collectIf, List.foldr_cons, if_neg h, ih]

/-- The neighbor accumulation reads the grid only at valid faces, so two
grids agreeing on valid faces accumulate identically. -/
theorem foldl_accum_congr (p : Int × Int × Int → Prop) [DecidablePred p]
    (u v : ScalarGrid) (L : List (Int × Int × Int))
    (huv : ∀ c ∈ L, p c → v c.1 c.2.1 c.2.2 = u c.1 c.2.1 c.2.2) :
    ∀ acc : ℕ × ℚ,
      L.foldl (fun acc c => if p c then (acc.1 + 1, acc.2 + v c.1 c.2.1 c.2.2) else acc) acc
        = L.foldl (fun acc c => if p c then (acc.1 + 1, acc.2 + u c.1 c.2.1 c.2.2) else acc) acc := by
  induction L with
  | nil => intro acc; simp
  | cons hd tl ih =>
    intro acc
    have ih2 := ih (fun c hc hp => huv c (List.mem_cons_of_mem hd hc) hp)
    by_cases h : p hd
    · simp only [List.foldl_cons, if_pos h, huv hd (List.mem_cons_self hd tl) h, ih2]
    · simp only [List.foldl_cons, if_neg h, ih2]

/-- One component of the extrapolation is idempotent. -/
theorem extrapolateComponent_idem (n : ℕ) (X Y Z : ℕ) (A : TypeGrid) (u : ScalarGrid) :
    extrapolateComponent n X Y Z A (extrapolateComponent n X Y Z A u)
      = extrapolateComponent n X Y Z A u := by
  funext i j k
  by_cases hc : inFaceRange n X Y Z i j k ∧ ¬ markFace n X Y Z A i j k
      ∧ wallFace n X Y Z A i j k
  · have hfold := foldl_accum_congr (faceValid n X Y Z A)
      u (extrapolateComponent n X Y Z A u) (neighborOffsets i j k)
      (fun c _ hp => extrapolateComponent_marked n X Y Z A u c.1 c.2.1 c.2.2 hp.2)
      ((0:ℕ), (0:ℚ))
    rw [extrapolateComponent_eval n X Y Z A (extrapolateComponent n X Y Z A u) i j k,
      if_pos hc]
    simp only [hfold]
    rw [extrapolateComponent_eval n X Y Z A u i j k, if_pos hc]
    by_cases hz : ((neighborOffsets i j k).foldl
        (fun acc c => if faceValid n X Y Z A c then (acc.1 + 1, acc.2 + u c.1 c.2.1 c.2.2)
                      else acc) ((0:ℕ), (0:ℚ))).1 ≠ 0
    · simp only [if_pos hz]
    · simp only [if_neg hz]
  · rw [extrapolateComponent_eval n X Y Z A (extrapolateComponent n X Y Z A u) i j k,
      if_neg hc]

/-- C9: extrapolateVelocity is idempotent: for every MAC grid state and
cell-type grid, running it twice yields exactly the face velocities of
running it once. -/
theorem C9_extrapolateVelocity_idempotent (X Y Z : ℕ) (g : Macgrid) :
    extrapolateVelocity X Y Z (extrapolateVelocity X Y Z g)
      = extrapolateVelocity X Y Z g := by
  cases g
  simp only [extrapolateVelocity, extrapolateComponent_idem]

/-- C3 (amended): for every staggered face with valid indicator false and
wall indicator TRUE, the face velocity is set to the mean of the in-range
valid neighbor faces, and kept when no such neighbor exists; every face
whose valid indicator is true, and every face whose wall indicator is
FALSE, is left untouched. (In the source the sweep condition at flip.cpp
line 501 is !mark && wallmark, so it rewrites exactly the non-valid wall
faces, not the non-valid non-wall faces the claim describes.) -/
theorem C3_extrapolate_amended (n : ℕ) (X Y Z : ℕ) (A : TypeGrid) (u : ScalarGrid)
    (i j k : Int) (hface : inFaceRange n X Y Z i j k) :
    ((markFace n X Y Z A i j k ∨ ¬ wallFace n X Y Z A i j k) →
        extrapolateComponent n X Y Z A u i j k = u i j k)
      ∧ (¬ markFace n X Y Z A i j k → wallFace n X Y Z A i j k →
          extrapolateComponent n X Y Z A u i j k =
            (if validNeighborFaces n X Y Z A i j k = [] then u i j k
             else ((validNeighborFaces n X Y Z A i j k).map (fun c => u c.1 c.2.1 c.2.2)).sum
                    / ((validNeighborFaces n X Y Z A i j k).length : ℚ))) := by
  constructor
  · intro h
    rw [extrapolateComponent_eval, if_neg]
    intro hcond
    rcases h with h | h
    · exact hcond.2.1 h
    · exact h hcond.2.2
  · intro hm hw
    rw [extrapolateComponent_eval, if_pos ⟨hface, hm, hw⟩]
    simp only [foldl_accum_collect (faceValid n X Y Z A) u (neighborOffsets i j k)
      ((0:ℕ), (0:ℚ)), Nat.zero_add, zero_add]
    by_cases he : validNeighborFaces n X Y Z A i j k = []
    · rw [if_pos he]
      simp only [validNeighborFaces] at he
      simp [he]
    · rw [if_neg he]
      simp only [validNeighborFaces] at he
      have hlen : (collectIf (faceValid n X Y Z A) (neighborOffsets i j k)).length ≠ 0 := by
        simpa [List.length_eq_zero] using he
      simp [validNeighborFaces, hlen]

/-- Cell types for the counterexample: cell (0,0,0) FLUID, others SOLID,
on a 3 x 1 x 1 grid. -/
def extrapA : TypeGrid := fun i _ _ => if i = 0 then FLUID else SOLID

/-- Face velocities for the counterexample: 5 at x-face (1,0,0), else 0. -/
def extrapU : ScalarGrid := fun i j k => if i = 1 ∧ j = 0 ∧ k = 0 then 5 else 0

/-- C3 counterexample: on a 3 x 1 x 1 grid with A = [FLUID, SOLID, SOLID],
the x-face (2,0,0) has wall indicator true (both neighbor cells SOLID) and
valid indicator false, yet the sweep overwrites it with the value 5 of its
valid neighbor face (1,0,0) - refuting the claim that every face whose
wall indicator is true is left untouched. -/
theorem C3_extrapolate_counterexample :
    wallFace 0 3 1 1 extrapA 2 0 0
      ∧ ¬ markFace 0 3 1 1 extrapA 2 0 0
      ∧ extrapolateComponent 0 3 1 1 extrapA extrapU 2 0 0 = 5
      ∧ extrapU 2 0 0 = 0 := by
  refine ⟨by decide, by decide, ?_, by norm_num [extrapU]⟩
  norm_num [extrapolateComponent, neighborOffsets, faceValid, inFaceRange, markFace,
    wallFace, staggerOne, axisC, axisD, extrapA, extrapU,
    eq_false (by decide : ¬ (SOLID = FLUID)), eq_false (by decide : ¬ (FLUID = SOLID))]

/-- C3 witness: the amended theorem applied at the concrete face (2,0,0)
of the counterexample grid. -/
theorem C3_extrapolate_amended_witness :
    ((markFace 0 3 1 1 extrapA 2 0 0 ∨ ¬ wallFace 0 3 1 1 extrapA 2 0 0) →
        extrapolateComponent 0 3 1 1 extrapA extrapU 2 0 0 = extrapU 2 0 0)
      ∧ (¬ markFace 0 3 1 1 extrapA 2 0 0 → wallFace 0 3 1 1 extrapA 2 0 0 →
          extrapolateComponent 0 3 1 1 extrapA extrapU 2 0 0 =
            (if validNeighborFaces 0 3 1 1 extrapA 2 0 0 = [] then extrapU 2 0 0
             else ((validNeighborFaces 0 3 1 1 extrapA 2 0 0).map
                      (fun c => extrapU c.1 c.2.1 c.2.2)).sum
                    / ((validNeighborFaces 0 3 1 1 extrapA 2 0 0).length : ℚ))) :=
  C3_extrapolate_amended 0 3 1 1 extrapA extrapU 2 0 0 (by decide)

/-- flipsim::subtractPressureGradient (flip.cpp lines 548-660): on every
interior face along each axis, update the face velocity by
u -= (pf - pb)/h with h = 1/maxd, where pf and pb are the adjacent cell
pressures, ghost-corrected per the sub-cell rule when subcell is on and
the level set changes sign across the face. -/
def subtractPressureGradient (X Y Z : ℕ) (subcell : Bool) (g : Macgrid) : Macgrid :=
  { g with
    u_x := fun i j k =>
      if 0 < i ∧ i < (X:Int) ∧ 0 ≤ j ∧ j < (Y:Int) ∧ 0 ≤ k ∧ k < (Z:Int) then
        let pf :=
          if subcell = true ∧ g.L i j k * g.L (i-1) j k < 0 then
            (if g.L i j k < 0 then g.P i j k
             else g.L i j k / min (1/1000) (g.L (i-1) j k) * g.P (i-1) j k)
          else g.P i j k
        let pb :=
          if subcell = true ∧ g.L i j k * g.L (i-1) j k < 0 then
            (if g.L (i-1) j k < 0 then g.P (i-1) j k
             else g.L (i-1) j k / min (1/1000000) (g.L i j k) * g.P i j k)
          else g.P (i-1) j k
        g.u_x i j k - (pf - pb) / (1 / maxd X Y Z)
      else g.u_x i j k,
    u_y := fun i j k =>
      if 0 ≤ i ∧ i < (X:Int) ∧ 0 < j ∧ j < (Y:Int) ∧ 0 ≤ k ∧ k < (Z:Int) then
        let pf :=
          if subcell = true ∧ g.L i j k * g.L i (j-1) k < 0 then
            (if g.L i j k < 0 then g.P i j k
             else g.L i j k / min (1/1000) (g.L i (j-1) k) * g.P i (j-1) k)
          else g.P i j k
        let pb :=
          if subcell = true ∧ g.L i j k * g.L i (j-1) k < 0 then
            (if g.L i (j-1) k < 0 then g.P i (j-1) k
             else g.L i (j-1) k / min (1/1000000) (g.L i j k) * g.P i j k)
          else g.P i (j-1) k
        g.u_y i j k - (pf - pb) / (1 / maxd X Y Z)
      else g.u_y i j k,
    u_z := fun i j k =>
      if 0 ≤ i ∧ i < (X:Int) ∧ 0 ≤ j ∧ j < (Y:Int) ∧ 0 < k ∧ k < (Z:Int) then
        let pf :=
          if subcell = true ∧ g.L i j k * g.L i j (k-1) < 0 then
            (if g.L i j k < 0 then g.P i j k
             else g.L i j k / min (1/1000) (g.L i j (k-1)) * g.P i j (k-1))
          else g.P i j k
        let pb :=
          if subcell = true ∧ g.L i j k * g.L i j (k-1) < 0 then
            (if g.L i j (k-1) < 0 then g.P i j (k-1)
             else g.L i j (k-1) / min (1/1000000) (g.L i j k) * g.P i j k)
          else g.P i j (k-1)
        g.u_z i j k - (pf - pb) / (1 / maxd X Y Z)
      else g.u_z i j k }

/-- Ghost-corrected pressure used in place of the front cell B's pressure
when the level set changes sign, per the claim: the side with L < 0 keeps
its own pressure, and an air-side B is replaced by the level-set-ratio
ghost with stabilizing floor min(1e-3, L_A). -/
def ghostFrontP (LA LB PA PB : ℚ) : ℚ :=
  if LB < 0 then PB else LB / min (1/1000) LA * PA

/-- Ghost-corrected pressure used in place of the back cell A's pressure
when the level set changes sign, per the claim: the side with L < 0 keeps
its own pressure, and an air-side A is replaced by the level-set-ratio
ghost with stabilizing floor min(1e-6, L_B). -/
def ghostBackP (LA LB PA PB : ℚ) : ℚ :=
  if LA < 0 then PA else LA / min (1/1000000) LB * PB

/-- C5: with sub-cell correction on, every interior face between back cell
A and front cell B is decremented by (P_B - P_A)/h with h = 1/max(X,Y,Z),
where on a sign change of the level set (L_A * L_B < 0) the pressures are
the ghost-corrected ones (floors min(1e-3, L_A) for the front ghost and
min(1e-6, L_B) for the back ghost, the L < 0 side keeping its own
pressure), and otherwise the two cells' unmodified pressures. -/
theorem C5_subtractPressureGradient_subcell (X Y Z : ℕ) (g : Macgrid) :
    (∀ i j k : Int, 0 < i → i < (X:Int) → 0 ≤ j → j < (Y:Int) → 0 ≤ k → k < (Z:Int) →
      (subtractPressureGradient X Y Z true g).u_x i j k
        = g.u_x i j k -
            ((if g.L (i-1) j k * g.L i j k < 0
              then ghostFrontP (g.L (i-1) j k) (g.L i j k) (g.P (i-1) j k) (g.P i j k)
              else g.P i j k)
             - (if g.L (i-1) j k * g.L i j k < 0
                then ghostBackP (g.L (i-1) j k) (g.L i j k) (g.P (i-1) j k) (g.P i j k)
                else g.P (i-1) j k)) / (1 / maxd X Y Z))
    ∧ (∀ i j k : Int, 0 ≤ i → i < (X:Int) → 0 < j → j < (Y:Int) → 0 ≤ k → k < (Z:Int) →
      (subtractPressureGradient X Y Z true g).u_y i j k
        = g.u_y i j k -
            ((if g.L i (j-1) k * g.L i j k < 0
              then ghostFrontP (g.L i (j-1) k) (g.L i j k) (g.P i (j-1) k) (g.P i j k)
              else g.P i j k)
             - (if g.L i (j-1) k * g.L i j k < 0
                then ghostBackP (g.L i (j-1) k) (g.L i j k) (g.P i (j-1) k) (g.P i j k)
                else g.P i (j-1) k)) / (1 / maxd X Y Z))
    ∧ (∀ i j k : Int, 0 ≤ i → i < (X:Int) → 0 ≤ j → j < (Y:Int) → 0 < k → k < (Z:Int) →
      (subtractPressureGradient X Y Z true g).u_z i j k
        = g.u_z i j k -
            ((if g.L i j (k-1) * g.L i j k < 0
              then ghostFrontP (g.L i j (k-1)) (g.L i j k) (g.P i j (k-1)) (g.P i j k)
              else g.P i j k)
             - (if g.L i j (k-1) * g.L i j k < 0
                then ghostBackP (g.L i j (k-1)) (g.L i j k) (g.P i j (k-1)) (g.P i j k)
                else g.P i j (k-1))) / (1 / maxd X Y Z))
    ∧ maxd X Y Z = max (X:ℚ) (max (Y:ℚ) (Z:ℚ)) := by
  refine ⟨fun i j k h1 h2 h3 h4 h5 h6 => ?_, fun i j k h1 h2 h3 h4 h5 h6 => ?_,
    fun i j k h1 h2 h3 h4 h5 h6 => ?_, ?_⟩
  · have hr : 0 < i ∧ i < (X:Int) ∧ 0 ≤ j ∧ j < (Y:Int) ∧ 0 ≤ k ∧ k < (Z:Int) :=
      ⟨h1, h2, h3, h4, h5, h6⟩
    simp only [subtractPressureGradient, ghostFrontP, ghostBackP, true_and]
    rw [mul_comm (g.L (i-1) j k) (g.L i j k), if_pos hr]
  · have hr : 0 ≤ i ∧ i < (X:Int) ∧ 0 < j ∧ j < (Y:Int) ∧ 0 ≤ k ∧ k < (Z:Int) :=
      ⟨h1, h2, h3, h4, h5, h6⟩
    simp only [subtractPressureGradient, ghostFrontP, ghostBackP, true_and]
    rw [mul_comm (g.L i (j-1) k) (g.L i j k), if_pos hr]
  · have hr : 0 ≤ i ∧ i < (X:Int) ∧ 0 ≤ j ∧ j < (Y:Int) ∧ 0 < k ∧ k < (Z:Int) :=
      ⟨h1, h2, h3, h4, h5, h6⟩
    simp only [subtractPressureGradient, ghostFrontP, ghostBackP, true_and]
    rw [mul_comm (g.L i j (k-1)) (g.L i j k), if_pos hr]
  · simp only [maxd]
    rw [max_assoc, max_comm (Z:ℚ) (Y:ℚ)]

/-- Concrete MAC grid with a level-set sign change across the x-face
(1,0,0): L = -1 in the slab i = 0 and L = 1 elsewhere. -/
def gradGrid : Macgrid :=
  { u_x := fun _ _ _ => 7, u_y := fun _ _ _ => 7, u_z := fun _ _ _ => 7,
    A := fun _ _ _ => FLUID,
    P := fun i _ _ => if i = 0 then 4 else 0,
    D := fun _ _ _ => 0,
    L := fun i _ _ => if i = 0 then -1 else 1 }

/-- C5 witness: the subtract-pressure-gradient theorem applied at the
concrete interior x-face (1,0,0) of a 2 x 2 x 2 grid with a level-set
sign change there. -/
theorem C5_subtractPressureGradient_subcell_witness :
    (subtractPressureGradient 2 2 2 true gradGrid).u_x 1 0 0
      = gradGrid.u_x 1 0 0 -
          ((if gradGrid.L 0 0 0 * gradGrid.L 1 0 0 < 0
            then ghostFrontP (gradGrid.L 0 0 0) (gradGrid.L 1 0 0)
                   (gradGrid.P 0 0 0) (gradGrid.P 1 0 0)
            else gradGrid.P 1 0 0)
           - (if gradGrid.L 0 0 0 * gradGrid.L 1 0 0 < 0
              then ghostBackP (gradGrid.L 0 0 0) (gradGrid.L 1 0 0)
                     (gradGrid.P 0 0 0) (gradGrid.P 1 0 0)
              else gradGrid.P 0 0 0)) / (1 / maxd 2 2 2) := by
  have h := C5_subtractPressureGradient_subcell 2 2 2 gradGrid
  have hx := h.1 1 0 0 (by norm_num) (by norm_num) (by norm_num) (by norm_num)
    (by norm_num) (by norm_num)
  simpa using hx

/-- Clamp an integer into [lo, hi] lands inside the interval. -/
theorem clampI_mem (lo hi v : Int) (h : lo ≤ hi) :
    lo ≤ clampI lo hi v ∧ clampI lo hi v ≤ hi :=
  ⟨le_max_left lo _, max_le h (min_le_left hi v)⟩

/-- Clamp an integer from above the interval lands on the upper bound. -/
theorem clampI_big (lo hi v : Int) (h1 : lo ≤ hi) (h2 : hi ≤ v) :
    clampI lo hi v = hi := by
  unfold clampI
  rw [min_eq_left h2, max_eq_right h1]

/-- Modelled from the spec: the cell-type grid's getCell on a continuous
point in grid units (the grid classes are not under src/): a clamped read
at the floored integer cell index (spec sections 4.1 and 4.2). -/
def getCellAtPoint (X Y Z : ℕ) (A : TypeGrid) (t : Vec3) : CellType :=
  A (clampI 0 ((X:Int) - 1) ⌊t.x⌋) (clampI 0 ((Y:Int) - 1) ⌊t.y⌋)
    (clampI 0 ((Z:Int) - 1) ⌊t.z⌋)

/-- The invalid-marking loop body of flipsim::step (flip.cpp lines
127-143): with t = p * maxd, the particle is invalid iff some component
of t exceeds its grid dimension, or some component is negative, or the
cell-type grid reads SOLID at t. -/
def markInvalid (X Y Z : ℕ) (A : TypeGrid) (q : Particle) : Bool :=
  let t : Vec3 := smul (maxd X Y Z) q.p
  if ((X:ℚ) < t.x ∨ (Y:ℚ) < t.y ∨ (Z:ℚ) < t.z)
      ∨ (t.x < 0 ∨ t.y < 0 ∨ t.z < 0)
      ∨ getCellAtPoint X Y Z A t = SOLID then true else false

/-- Position outside the closed unit cube, as the claim states it. -/
def outsideUnitCube (v : Vec3) : Prop :=
  v.x < 0 ∨ 1 < v.x ∨ v.y < 0 ∨ 1 < v.y ∨ v.z < 0 ∨ 1 < v.z

/-- The domain shell (the outermost layer of cells) is SOLID, which
markCellTypes guarantees before the marking phase of step runs. -/
def solidShell (X Y Z : ℕ) (A : TypeGrid) : Prop :=
  ∀ i j k : Int, 0 ≤ i → i < (X:Int) → 0 ≤ j → j < (Y:Int) → 0 ≤ k → k < (Z:Int) →
    (i = 0 ∨ i = (X:Int) - 1 ∨ j = 0 ∨ j = (Y:Int) - 1 ∨ k = 0 ∨ k = (Z:Int) - 1) →
    A i j k = SOLID

/-- A Prop-guarded boolean conditional is true exactly when the guard holds. -/
theorem ite_bool_iff (P : Prop) [Decidable P] :
    ((if P then true else false) = true) ↔ P := by
  by_cases h : P <;> simp [h]

/-- A point past the grid in x reads a shell cell, hence SOLID. -/
theorem getCellAtPoint_shell_x (X Y Z : ℕ) (hX : 1 ≤ X) (hY : 1 ≤ Y) (hZ : 1 ≤ Z)
    (A : TypeGrid) (hshell : solidShell X Y Z A) (t : Vec3) (h : (X:ℚ) ≤ t.x) :
    getCellAtPoint X Y Z A t = SOLID := by
  have hX' : (1:Int) ≤ (X:Int) := by exact_mod_cast hX
  have hY' : (1:Int) ≤ (Y:Int) := by exact_mod_cast hY
  have hZ' : (1:Int) ≤ (Z:Int) := by exact_mod_cast hZ
  have hfl : (X:Int) ≤ ⌊t.x⌋ := Int.le_floor.mpr (by exact_mod_cast h)
  have hcx : clampI 0 ((X:Int)-1) ⌊t.x⌋ = (X:Int) - 1 :=
    clampI_big _ _ _ (by omega) (by omega)
  have hcy := clampI_mem 0 ((Y:Int)-1) ⌊t.y⌋ (by omega)
  have hcz := clampI_mem 0 ((Z:Int)-1) ⌊t.z⌋ (by omega)
  unfold getCellAtPoint
  rw [hcx]
  exact hshell _ _ _ (by omega) (by omega) hcy.1 (by omega) hcz.1 (by omega)
    (Or.inr (Or.inl rfl))

/-- A point past the grid in y reads a shell cell, hence SOLID. -/
theorem getCellAtPoint_shell_y (X Y Z : ℕ) (hX : 1 ≤ X) (hY : 1 ≤ Y) (hZ : 1 ≤ Z)
    (A : TypeGrid) (hshell : solidShell X Y Z A) (t : Vec3) (h : (Y:ℚ) ≤ t.y) :
    getCellAtPoint X Y Z A t = SOLID := by
  have hX' : (1:Int) ≤ (X:Int) := by exact_mod_cast hX
  have hY' : (1:Int) ≤ (Y:Int) := by exact_mod_cast hY
  have hZ' : (1:Int) ≤ (Z:Int) := by exact_mod_cast hZ
  have hfl : (Y:Int) ≤ ⌊t.y⌋ := Int.le_floor.mpr (by exact_mod_cast h)
  have hcy : clampI 0 ((Y:Int)-1) ⌊t.y⌋ = (Y:Int) - 1 :=
    clampI_big _ _ _ (by omega) (by omega)
  have hcx := clampI_mem 0 ((X:Int)-1) ⌊t.x⌋ (by omega)
  have hcz := clampI_mem 0 ((Z:Int)-1) ⌊t.z⌋ (by omega)
  unfold getCellAtPoint
  rw [hcy]
  exact hshell _ _ _ hcx.1 (by omega) (by omega) (by omega) hcz.1 (by omega)
    (Or.inr (Or.inr (Or.inr (Or.inl rfl))))

/-- A point past the grid in z reads a shell cell, hence SOLID. -/
theorem getCellAtPoint_shell_z (X Y Z : ℕ) (hX : 1 ≤ X) (hY : 1 ≤ Y) (hZ : 1 ≤ Z)
    (A : TypeGrid) (hshell : solidShell X Y Z A) (t : Vec3) (h : (Z:ℚ) ≤ t.z) :
    getCellAtPoint X Y Z A t = SOLID := by
  have hX' : (1:Int) ≤ (X:Int) := by exact_mod_cast hX
  have hY' : (1:Int) ≤ (Y:Int) := by exact_mod_cast hY
  have hZ' : (1:Int) ≤ (Z:Int) := by exact_mod_cast hZ
  have hfl : (Z:Int) ≤ ⌊t.z⌋ := Int.le_floor.mpr (by exact_mod_cast h)
  have hcz : clampI 0 ((Z:Int)-1) ⌊t.z⌋ = (Z:Int) - 1 :=
    clampI_big _ _ _ (by omega) (by omega)
  have hcx := clampI_mem 0 ((X:Int)-1) ⌊t.x⌋ (by omega)
  have hcy := clampI_mem 0 ((Y:Int)-1) ⌊t.y⌋ (by omega)
  unfold getCellAtPoint
  rw [hcz]
  exact hshell _ _ _ hcx.1 (by omega) hcy.1 (by omega) (by omega) (by omega)
    (Or.inr (Or.inr (Or.inr (Or.inr (Or.inr rfl)))))

/-- C7: after the marking phase (with the cell-type grid carrying the
SOLID shell that markCellTypes establishes, and dimensions at least 1), a
particle is marked invalid iff its position lies outside the unit cube or
the cell containing it (clamped floored grid-space cell) is SOLID; this
holds for every particle and every, possibly non-cubic, grid dimensions. -/
theorem C7_markInvalid_iff (X Y Z : ℕ) (hX : 1 ≤ X) (hY : 1 ≤ Y) (hZ : 1 ≤ Z)
    (A : TypeGrid) (hshell : solidShell X Y Z A) (q : Particle) :
    markInvalid X Y Z A q = true ↔
      (outsideUnitCube q.p ∨
        getCellAtPoint X Y Z A (smul (maxd X Y Z) q.p) = SOLID) := by
  have hmX : (X:ℚ) ≤ maxd X Y Z := le_trans (le_max_left _ _) (le_max_left _ _)
  have hmZ : (Z:ℚ) ≤ maxd X Y Z := le_trans (le_max_right _ _) (le_max_left _ _)
  have hmY : (Y:ℚ) ≤ maxd X Y Z := le_max_right _ _
  have hm1 : (1:ℚ) ≤ maxd X Y Z := le_trans (by exact_mod_cast hX) hmX
  have hm0 : (0:ℚ) < maxd X Y Z := lt_of_lt_of_le one_pos hm1
  simp only [markInvalid, ite_bool_iff, smul, outsideUnitCube]
  constructor
  · rintro (h | h | h)
    · right
      rcases h with hx | hy | hz2
      · exact getCellAtPoint_shell_x X Y Z hX hY hZ A hshell _ (le_of_lt hx)
      · exact getCellAtPoint_shell_y X Y Z hX hY hZ A hshell _ (le_of_lt hy)
      · exact getCellAtPoint_shell_z X Y Z hX hY hZ A hshell _ (le_of_lt hz2)
    · left
      rcases h with hx | hy | hz2
      · rcases mul_neg_iff.mp hx with ⟨_, h2⟩ | ⟨h1, _⟩
        · exact Or.inl h2
        · exact absurd hm0 (not_lt_of_lt h1)
      · rcases mul_neg_iff.mp hy with ⟨_, h2⟩ | ⟨h1, _⟩
        · exact Or.inr (Or.inr (Or.inl h2))
        · exact absurd hm0 (not_lt_of_lt h1)
      · rcases mul_neg_iff.mp hz2 with ⟨_, h2⟩ | ⟨h1, _⟩
        · exact Or.inr (Or.inr (Or.inr (Or.inr (Or.inl h2))))
        · exact absurd hm0 (not_lt_of_lt h1)
    · exact Or.inr h
  · rintro (h | h)
    · rcases h with h | h | h | h | h | h
      · exact Or.inr (Or.inl (Or.inl (mul_neg_of_pos_of_neg hm0 h)))
      · refine Or.inl (Or.inl ?_)
        have h2 : maxd X Y Z < maxd X Y Z * q.p.x := by
          have h3 := mul_lt_mul_of_pos_left h hm0
          rwa [mul_one] at h3
        exact lt_of_le_of_lt hmX h2
      · exact Or.inr (Or.inl (Or.inr (Or.inl (mul_neg_of_pos_of_neg hm0 h))))
      · refine Or.inl (Or.inr (Or.inl ?_))
        have h2 : maxd X Y Z < maxd X Y Z * q.p.y := by
          have h3 := mul_lt_mul_of_pos_left h hm0
          rwa [mul_one] at h3
        exact lt_of_le_of_lt hmY h2
      · exact Or.inr (Or.inl (Or.inr (Or.inr (mul_neg_of_pos_of_neg hm0 h))))
      · refine Or.inl (Or.inr (Or.inr ?_))
        have h2 : maxd X Y Z < maxd X Y Z * q.p.z := by
          have h3 := mul_lt_mul_of_pos_left h hm0
          rwa [mul_one] at h3
        exact lt_of_le_of_lt hmZ h2
    · exact Or.inr (Or.inr h)

/-- Cell-type grid with every cell SOLID. -/
def allSolidGrid : TypeGrid := fun _ _ _ => SOLID

/-- C7 witness: the marking characterization applied on a 2 x 2 x 2 grid,
whose cells are all shell cells, to a concrete particle. -/
theorem C7_markInvalid_iff_witness :
    markInvalid 2 2 2 allSolidGrid fluidCenter = true ↔
      (outsideUnitCube fluidCenter.p ∨
        getCellAtPoint 2 2 2 allSolidGrid (smul (maxd 2 2 2) fluidCenter.p) = SOLID) :=
  C7_markInvalid_iff 2 2 2 (by norm_num) (by norm_num) (by norm_num) allSolidGrid
    (fun _ _ _ _ _ _ _ _ _ _ => rfl) fluidCenter

/-- The wall penalty force factor, 10.0f at flip.cpp line 173. -/
def penaltyForce : ℚ := 10

/-- The stuck-particle penalty of flipsim::step (flip.cpp lines 170-178):
with proj the scene-projected point in grid units and q.p*maxd the
particle's grid-space position, when the two differ in length by more
than 1e-4 the particle's position becomes proj/maxd and its velocity
becomes (proj - q.p*maxd) * penaltyForce; otherwise it is untouched. -/
def pushStuckParticle (maxdv : ℚ) (proj : Vec3) (q : Particle) : Particle :=
  if 1/10000 < vlength (vsub proj (smul maxdv q.p)) then
    { q with p := smul (1/maxdv) proj,
             u := smul penaltyForce (vsub proj (smul maxdv q.p)) }
  else q

/-- The stuck-particle collection and penalty of flipsim::step (flip.cpp
lines 156-178): every particle with invalid set and type FLUID is handed
to the scene's projection (an abstract function of its grid-space
position) and penalised; all other particles are untouched. -/
def pushStuckParticles (maxdv : ℚ) (projFn : Vec3 → Vec3)
    (ps : List Particle) : List Particle :=
  ps.map (fun q =>
    if q.invalid = true ∧ q.type = FLUID then
      pushStuckParticle maxdv (projFn (smul maxdv q.p)) q
    else q)

/-- A stuck FLUID particle at the domain center (a concrete input). -/
def stuckQ : Particle :=
  { p := ⟨1/2, 1/2, 1/2⟩, u := ⟨0, 0, 0⟩, t := ⟨0, 0, 0⟩, n := ⟨0, 0, 0⟩,
    mass := 1, density := 1, type := FLUID, invalid := true, temp := false }

/-- A projection sending every point to the grid-space point (3, 2, 2). -/
def stuckProj : Vec3 → Vec3 := fun _ => ⟨3, 2, 2⟩

/-- C6 counterexample: on a grid with maxd = 4, a stuck particle at
(1/2,1/2,1/2) projected to grid point (3,2,2) leaves with velocity
(10,0,0) = displacement * 10, not displacement * 10/stepsize: the claimed
velocity is off by the missing division by the step size, under both the
grid-unit and the world-unit reading of the displacement. -/
theorem C6_pushStuck_counterexample :
    ((pushStuckParticles 4 stuckProj [stuckQ])[0]?).map Particle.u = some ⟨10, 0, 0⟩
      ∧ (⟨10, 0, 0⟩ : Vec3) ≠ smul (penaltyForce / stepsize)
          (vsub (stuckProj (smul 4 stuckQ.p)) (smul 4 stuckQ.p))
      ∧ (⟨10, 0, 0⟩ : Vec3) ≠ smul (penaltyForce / stepsize)
          (vsub (smul (1/4) (stuckProj (smul 4 stuckQ.p))) stuckQ.p) := by
  have hs1 : natSqrt 1 = 1 := by decide
  refine ⟨?_, ?_, ?_⟩
  · norm_num [pushStuckParticles, pushStuckParticle, stuckQ, stuckProj, vsub, smul,
      vlength, vdot, ratSqrt, hs1, penaltyForce]
  · norm_num [smul, vsub, penaltyForce, stepsize, stuckProj, stuckQ, Vec3.mk.injEq]
  · norm_num [smul, vsub, penaltyForce, stepsize, stuckProj, stuckQ, Vec3.mk.injEq]

/-- C6 (amended): at the end of step, every stuck (invalid and FLUID)
particle whose scene-projected point differs from its grid-space position
by more than 1e-4 has its position set to the projected point divided by
maxd and its velocity set to (projected - old grid-space position) times
the wall penalty force factor 10, with no division by the step size. -/
theorem C6_pushStuck_amended (maxdv : ℚ) (projFn : Vec3 → Vec3) (ps : List Particle)
    (i : ℕ) (q : Particle) (hq : ps[i]? = some q) (hinv : q.invalid = true)
    (hfl : q.type = FLUID)
    (hdiff : 1/10000 < vlength (vsub (projFn (smul maxdv q.p)) (smul maxdv q.p))) :
    (pushStuckParticles maxdv projFn ps)[i]? =
      some { q with
        p := smul (1/maxdv) (projFn (smul maxdv q.p)),
        u := smul penaltyForce (vsub (projFn (smul maxdv q.p)) (smul maxdv q.p)) } := by
  simp only [pushStuckParticles, List.getElem?_map, hq, Option.map_some']
  rw [if_pos ⟨hinv, hfl⟩]
  simp only [pushStuckParticle]
  rw [if_pos hdiff]

/-- C6 witness: the amended penalty theorem applied to the concrete stuck
particle. -/
theorem C6_pushStuck_amended_witness :
    (pushStuckParticles 4 stuckProj [stuckQ])[0]? =
      some { stuckQ with
        p := smul (1/4) (stuckProj (smul 4 stuckQ.p)),
        u := smul penaltyForce (vsub (stuckProj (smul 4 stuckQ.p)) (smul 4 stuckQ.p)) } :=
  C6_pushStuck_amended 4 stuckProj [stuckQ] 0 stuckQ rfl rfl rfl
    (by norm_num [stuckProj, stuckQ, vsub, smul, vlength, vdot, ratSqrt,
      (by decide : natSqrt 1 = 1)])

/-- Modelled from the spec: the cell a particle is bucketed into by
particlegrid::sort (the particlegrid code is not under src/): the
per-axis floored cell index clamped to the domain (spec section 4.2). -/
def cellOf (X Y Z : ℕ) (pos : Vec3) : Int × Int × Int :=
  (clampI 0 ((X:Int)-1) ⌊pos.x * (X:ℚ)⌋,
   clampI 0 ((Y:Int)-1) ⌊pos.y * (Y:ℚ)⌋,
   clampI 0 ((Z:Int)-1) ⌊pos.z * (Z:ℚ)⌋)

/-- Modelled from the spec: particlegrid::getCellNeighbors (not under
src/): all particles bucketed within the radius-one cube of cells around
the center (spec section 4.2); list order models bucket order. -/
def getCellNeighbors (X Y Z : ℕ) (ps : List Particle) (ci cj ck : Int) : List Particle :=
  ps.foldr (fun np acc =>
    if (ci - 1 ≤ (cellOf X Y Z np.p).1 ∧ (cellOf X Y Z np.p).1 ≤ ci + 1)
        ∧ (cj - 1 ≤ (cellOf X Y Z np.p).2.1 ∧ (cellOf X Y Z np.p).2.1 ≤ cj + 1)
        ∧ (ck - 1 ≤ (cellOf X Y Z np.p).2.2 ∧ (cellOf X Y Z np.p).2.2 ≤ ck + 1)
    then np :: acc else acc) []

/-- The outer-wall clamp of flipsim::advectParticles (flip.cpp lines
207-211): each FLUID particle's position is clamped into [r, 1-r]^3 with
r = 1/maxd; other particles are untouched. -/
def clampToWalls (maxdv : ℚ) (q : Particle) : Particle :=
  if q.type = FLUID then
    { q with p := vmaxC (vec3c (1/maxdv)) (vminC (vec3c (1 - 1/maxdv)) q.p) }
  else q

/-- The per-neighbor wall response of flipsim::advectParticles (flip.cpp
lines 219-233): against a SOLID neighbor closer than re = 1.5*density/maxd,
push the particle by (re - dist) along the solid's normal (or the
separation direction when the stored normal is near zero and dist is
nonzero) and remove the velocity component along that normal. -/
def wallResponse (maxdv den : ℚ) (q : Particle) (np : Particle) : Particle :=
  if np.type = SOLID then
    let re := 3/2 * den / maxdv
    let dist := vlength (vsub q.p np.p)
    if dist < re then
      let normal := if vlength np.n < 1/10000000 ∧ ¬ dist = 0
                    then vnormalize (vsub q.p np.p) else np.n
      { q with p := vadd q.p (smul (re - dist) normal),
               u := vsub q.u (smul (vdot q.u normal) normal) }
    else q
  else q

/-- The constraint-pass body of flipsim::advectParticles (flip.cpp lines
205-237): clamp the particle to the walls, then, when it is FLUID, fold
the wall response over its radius-one cell neighbors taken from the
sorted particle list. -/
def constrainParticle (X Y Z : ℕ) (den : ℚ) (sorted : List Particle)
    (q : Particle) : Particle :=
  let maxdv := maxd X Y Z
  let q1 := clampToWalls maxdv q
  if q1.type = FLUID then
    let ci := min ((X:Int) - 1) ⌊q1.p.x * maxdv⌋
    let cj := min ((Y:Int) - 1) ⌊q1.p.y * maxdv⌋
    let ck := min ((Z:Int) - 1) ⌊q1.p.z * maxdv⌋
    (getCellNeighbors X Y Z sorted ci cj ck).foldl (wallResponse maxdv den) q1
  else q1

/-- flipsim::advectParticles (flip.cpp lines 185-266): move each FLUID
particle by stepsize times the interpolated grid velocity, sort, then run
the wall-constraint pass on every particle against the sorted list. -/
def advectParticles (X Y Z : ℕ) (den : ℚ) (g : Macgrid)
    (ps : List Particle) : List Particle :=
  let moved := ps.map (fun q =>
    if q.type = FLUID then
      { q with p := vadd q.p (smul stepsize (interpolateVelocity X Y Z g q.p)) }
    else q)
  moved.map (constrainParticle X Y Z den moved)

/-- C8 (amended): the wall clamp stage of advectParticles puts every FLUID
particle's position componentwise within [h, 1-h] with h = 1/maxd
(whenever maxd is at least 2); the containment is established before the
wall response runs, and the subsequent solid-neighbor push can move a
position back outside this range. -/
theorem C8_clampToWalls_bounds (maxdv : ℚ) (hm : 2 ≤ maxdv) (q : Particle)
    (hfl : q.type = FLUID) :
    (1/maxdv ≤ (clampToWalls maxdv q).p.x ∧ (clampToWalls maxdv q).p.x ≤ 1 - 1/maxdv)
      ∧ (1/maxdv ≤ (clampToWalls maxdv q).p.y ∧ (clampToWalls maxdv q).p.y ≤ 1 - 1/maxdv)
      ∧ (1/maxdv ≤ (clampToWalls maxdv q).p.z ∧ (clampToWalls maxdv q).p.z ≤ 1 - 1/maxdv) := by
  have hm0 : (0:ℚ) < maxdv := lt_of_lt_of_le two_pos hm
  have hr : 1/maxdv ≤ 1 - 1/maxdv := by
    rw [le_sub_iff_add_le]
    have h2 : 1/maxdv + 1/maxdv = 2/maxdv := by ring
    rw [h2, div_le_one hm0]
    exact hm
  simp only [clampToWalls, if_pos hfl, vmaxC, vminC, vec3c]
  exact ⟨⟨le_max_left _ _, max_le hr (min_le_left _ _)⟩,
    ⟨le_max_left _ _, max_le hr (min_le_left _ _)⟩,
    ⟨le_max_left _ _, max_le hr (min_le_left _ _)⟩⟩

/-- C8 witness: the clamp-stage bounds applied to a concrete FLUID
particle on a grid with maxd = 4. -/
theorem C8_clampToWalls_bounds_witness :
    (1/4 ≤ (clampToWalls 4 stuckQ).p.x ∧ (clampToWalls 4 stuckQ).p.x ≤ 1 - 1/4)
      ∧ (1/4 ≤ (clampToWalls 4 stuckQ).p.y ∧ (clampToWalls 4 stuckQ).p.y ≤ 1 - 1/4)
      ∧ (1/4 ≤ (clampToWalls 4 stuckQ).p.z ∧ (clampToWalls 4 stuckQ).p.z ≤ 1 - 1/4) :=
  C8_clampToWalls_bounds 4 (by norm_num) stuckQ rfl

/-- MAC grid with all velocities and scalars zero and all cells AIR. -/
def zeroGrid : Macgrid :=
  { u_x := fun _ _ _ => 0, u_y := fun _ _ _ => 0, u_z := fun _ _ _ => 0,
    A := fun _ _ _ => AIR, P := fun _ _ _ => 0, D := fun _ _ _ => 0,
    L := fun _ _ _ => 0 }

/-- A FLUID particle near the +x wall (a concrete input). -/
def escFluid : Particle :=
  { p := ⟨4/5, 1/2, 1/2⟩, u := ⟨0, 0, 0⟩, t := ⟨0, 0, 0⟩, n := ⟨0, 0, 0⟩,
    mass := 1, density := 1, type := FLUID, invalid := false, temp := false }

/-- A SOLID marker particle at the domain center with normal +x (a
concrete input). -/
def escSolid : Particle :=
  { p := ⟨1/2, 1/2, 1/2⟩, u := ⟨0, 0, 0⟩, t := ⟨0, 0, 0⟩, n := ⟨1, 0, 0⟩,
    mass := 1, density := 1, type := SOLID, invalid := false, temp := false }

/-- C8 counterexample: on a 4x4x4 grid (h = 1/4) with target density 2 and
a zero velocity field, the FLUID particle at (4/5, 1/2, 1/2) is clamped to
x = 3/4 and then pushed by the SOLID neighbor at the center to
x = 5/4 > 1 > 1 - h: after advectParticles returns, its position is
neither within [h, 1-h]^3 nor within the unit cube. -/
theorem C8_advect_counterexample :
    ((advectParticles 4 4 4 2 zeroGrid [escFluid, escSolid])[0]?).map (fun q => q.p.x)
        = some (5/4)
      ∧ ¬ ((5:ℚ)/4 ≤ 1 - 1/(maxd 4 4 4))
      ∧ (1:ℚ) < 5/4 := by
  have hs1 : natSqrt 1 = 1 := by decide
  have hs16 : natSqrt 16 = 4 := by decide
  refine ⟨?_, by norm_num [maxd], by norm_num⟩
  norm_num [advectParticles, constrainParticle, clampToWalls, wallResponse,
    getCellNeighbors, cellOf, clampI, interpolateVelocity, triSample, maxd,
    stepsize, vadd, vsub, smul, vdot, vlength, vnormalize, ratSqrt, vmaxC, vminC,
    vec3c, zeroGrid, escFluid, escSolid, hs1, hs16, min_def, max_def,
    eq_false (by decide : ¬ (SOLID = FLUID)), eq_false (by decide : ¬ (FLUID = SOLID))]

end Kai
